import Mathlib

/-!
Verification development for the LichtFeld-Studio Gaussian-splatting core.

The C++ sources are shallowly embedded over exact arithmetic (`ℚ`, and `ℝ`
where the code's own contract is stated with a real square root).  Tensors
become lists, per-primitive attribute rows become tuples, fallible code
returns `Except String`.  CUDA kernels whose sources are not part of the
repository snapshot are either abstracted as function parameters (when a
claim is independent of their behaviour) or modelled from the specification
text (marked `Modelled from the spec:` in their doc comments).
-/

namespace LFS

/-- A 3-component float row (means, scales, sh coefficients, ...). -/
abbrev Vec3q := ℚ × ℚ × ℚ

/-- A 4-component float row (quaternions). -/
abbrev Vec4q := ℚ × ℚ × ℚ × ℚ

/-- Row-major matrix as list of rows. -/
abbrev Matq := List (List ℚ)

/-- Entry access with the usual out-of-range default. -/
def entry (M : Matq) (i j : ℕ) : ℚ := (M.getD i []).getD j 0

/-- Camera model tag of `gsplat::CameraModelType` as used by the loader. -/
inductive CameraModelType where
  | PINHOLE
  | FISHEYE
  deriving DecidableEq, Repr

/-!
## Camera (src/src/camera.cpp)
-/

/-- Embedding of `world_to_view` (camera.cpp): builds `Rt` as the 4×4 identity
with `Rt[0:3,0:3] = Rᵀ` and `Rt[3,0:3] = t`, and returns `Rt.t()`; the result
therefore has rows `[R[i][0], R[i][1], R[i][2], t[i]]` and `[0,0,0,1]`. -/
def world_to_view (R : Matq) (T : List ℚ) : Matq :=
  [[entry R 0 0, entry R 0 1, entry R 0 2, T.getD 0 0],
   [entry R 1 0, entry R 1 1, entry R 1 2, T.getD 1 0],
   [entry R 2 0, entry R 2 1, entry R 2 2, T.getD 2 0],
   [0, 0, 0, 1]]

/-- Embedding of `gs::Camera` (fields of camera.cpp's constructor). -/
structure Camera where
  uid : ℤ
  focal_x : ℚ
  focal_y : ℚ
  center_x : ℚ
  center_y : ℚ
  radial_distortion : List ℚ
  tangential_distortion : List ℚ
  camera_model_type : CameraModelType
  image_name : String
  image_path : String
  camera_width : ℤ
  camera_height : ℤ
  image_width : ℤ
  image_height : ℤ
  world_view_transform : Matq
  deriving DecidableEq, Repr

/-- Embedding of the `Camera::Camera` constructor (camera.cpp lines 19-45):
every stored field comes straight from the arguments, `_image_width` and
`_image_height` are initialised to `camera_width`/`camera_height`, and the
world-view transform is built by `world_to_view`. -/
def Camera.construct (R : Matq) (T : List ℚ)
    (focal_x focal_y center_x center_y : ℚ)
    (radial_distortion tangential_distortion : List ℚ)
    (camera_model_type : CameraModelType)
    (image_name image_path : String)
    (camera_width camera_height : ℤ) (uid : ℤ) : Camera :=
  { uid := uid
    focal_x := focal_x
    focal_y := focal_y
    center_x := center_x
    center_y := center_y
    radial_distortion := radial_distortion
    tangential_distortion := tangential_distortion
    camera_model_type := camera_model_type
    image_name := image_name
    image_path := image_path
    camera_width := camera_width
    camera_height := camera_height
    image_width := camera_width
    image_height := camera_height
    world_view_transform := world_to_view R T }

/-- Embedding of `Camera::K` (camera.cpp lines 47-57): intrinsics scaled by
`image_width/camera_width` and `image_height/camera_height`. -/
def Camera.K (c : Camera) : Matq :=
  let xs : ℚ := (c.image_width : ℚ) / (c.camera_width : ℚ)
  let ys : ℚ := (c.image_height : ℚ) / (c.camera_height : ℚ)
  [[c.focal_x * xs, 0, c.center_x * xs],
   [0, c.focal_y * ys, c.center_y * ys],
   [0, 0, 1]]

/-- Modelled from the spec: `Camera::get_intrinsics` is declared in
`camera.hpp`, which is not part of the source snapshot; it is modelled as
returning the same scaled `(fx, fy, cx, cy)` values that `Camera::K` places
in the intrinsic matrix. -/
def Camera.get_intrinsics (c : Camera) : ℚ × ℚ × ℚ × ℚ :=
  let xs : ℚ := (c.image_width : ℚ) / (c.camera_width : ℚ)
  let ys : ℚ := (c.image_height : ℚ) / (c.camera_height : ℚ)
  (c.focal_x * xs, c.focal_y * ys, c.center_x * xs, c.center_y * ys)

/-- Modelled from the spec: `Camera::cam_position` is declared in
`camera.hpp`, which is not part of the source snapshot; the camera position
in world space is `-Rᵀ·t` extracted from the stored world-to-view matrix. -/
def Camera.cam_position (c : Camera) : Vec3q :=
  let W := c.world_view_transform
  ( -(entry W 0 0 * entry W 0 3 + entry W 1 0 * entry W 1 3 + entry W 2 0 * entry W 2 3),
    -(entry W 0 1 * entry W 0 3 + entry W 1 1 * entry W 1 3 + entry W 2 1 * entry W 2 3),
    -(entry W 0 2 * entry W 0 3 + entry W 1 2 * entry W 1 3 + entry W 2 2 * entry W 2 3) )

/-- Result of the external `load_image` call (image_io is outside the core):
decoded pixel buffer plus width, height, channel count. -/
structure LoadedImage where
  data : List ℚ
  w : ℤ
  h : ℤ
  c : ℤ
  deriving DecidableEq, Repr

/-- Normalised image tensor produced by `Camera::load_and_get_image`:
`from_blob` with strides `{w*c, c, 1}`, permuted to channel-major, divided
by 255. -/
structure ImageTensor where
  channels : ℤ
  height : ℤ
  width : ℤ
  pixel : ℕ → ℕ → ℕ → ℚ

/-- Embedding of `Camera::load_and_get_image` (camera.cpp lines 59-88): the
decoded width/height overwrite `_image_width`/`_image_height`, and the
returned tensor holds `data[(y*w + x)*c + ch] / 255`.  The load result is
passed in because image decoding is an external collaborator. -/
def Camera.load_and_get_image (cam : Camera) (res : LoadedImage) :
    Camera × ImageTensor :=
  ({ cam with image_width := res.w, image_height := res.h },
   { channels := res.c
     height := res.h
     width := res.w
     pixel := fun ch y x =>
       res.data.getD ((y * res.w.toNat + x) * res.c.toNat + ch) 0 / 255 })

/-!
## SplatData (src/include/core/splat_data.hpp)
-/

/-- Embedding of `gs::SplatData`: the per-primitive tensors.  `means` is
`N×3`, `sh0` is `N×1×3`, `shN` is `N×(B-1)×3`, `scaling` is `N×3`,
`rotation` is `N×4`, `opacity` is `N×1`. -/
structure SplatData where
  active_sh_degree : ℕ
  max_sh_degree : ℕ
  scene_scale : ℚ
  means : List Vec3q
  sh0 : List (List Vec3q)
  shN : List (List Vec3q)
  scaling : List Vec3q
  rotation : List Vec4q
  opacity : List ℚ
  deriving DecidableEq, Repr

/-- Embedding of `SplatData::size()`: the leading dimension of `_means`. -/
def SplatData.size (s : SplatData) : ℕ := s.means.length

/-!
## fast_rasterize (src/src/fast_rasterizer.cpp)
-/

/-- Embedding of `fast_gs::rasterization::FastGSSettings`, whose fields are
exactly those assigned in `fast_rasterize`. -/
structure FastGSSettings where
  w2c : Matq
  cam_position : Vec3q
  active_sh_bases : ℕ
  width : ℤ
  height : ℤ
  focal_x : ℚ
  focal_y : ℚ
  center_x : ℚ
  center_y : ℚ
  near_plane : ℚ
  far_plane : ℚ

/-- The argument tuple of `FastGSRasterize::apply`
(include/core/fast_rasterizer_autograd.hpp lines 11-20). -/
structure FastGSInputs where
  means : List Vec3q
  scales_raw : List Vec3q
  rotations_raw : List Vec4q
  opacities_raw : List ℚ
  sh_coefficients_0 : List (List Vec3q)
  sh_coefficients_rest : List (List Vec3q)
  densification_info : List ℚ
  settings : FastGSSettings

/-- The `RenderOutput` fields filled by `fast_rasterize`.  The tensor type is
abstract: the CUDA rasterizer producing the entries is not in the snapshot. -/
structure RenderOutputData (T : Type) where
  image : Option T
  alpha : Option T

/-- Embedding of `gs::fast_rasterize` (fast_rasterizer.cpp lines 11-71).
The fused CUDA kernel behind `FastGSRasterize::apply` is not part of the
source snapshot, so it enters as the function parameter `apply`; everything
the C++ function itself does — reading camera and model fields, building the
settings with `near_plane = 0.2`, `far_plane = 1000`, an empty
densification-info tensor, and selecting outputs 0 and 1 — is embedded
directly.  The `bg_color` argument is accepted but, per the TODO at lines
62-68, never used. -/
def fast_rasterize {T : Type} (apply : FastGSInputs → List T)
    (viewpoint_camera : Camera) (gaussian_model : SplatData)
    (bg_color : List ℚ) : RenderOutputData T :=
  let width := viewpoint_camera.image_width
  let height := viewpoint_camera.image_height
  let fx := viewpoint_camera.get_intrinsics.1
  let fy := viewpoint_camera.get_intrinsics.2.1
  let cx := viewpoint_camera.get_intrinsics.2.2.1
  let cy := viewpoint_camera.get_intrinsics.2.2.2
  let sh_degree := gaussian_model.active_sh_degree
  let active_sh_bases := (sh_degree + 1) * (sh_degree + 1)
  let settings : FastGSSettings :=
    { w2c := viewpoint_camera.world_view_transform
      cam_position := viewpoint_camera.cam_position
      active_sh_bases := active_sh_bases
      width := width
      height := height
      focal_x := fx
      focal_y := fy
      center_x := cx
      center_y := cy
      near_plane := 1 / 5
      far_plane := 1000 }
  let raster_outputs := apply
    { means := gaussian_model.means
      scales_raw := gaussian_model.scaling
      rotations_raw := gaussian_model.rotation
      opacities_raw := gaussian_model.opacity
      sh_coefficients_0 := gaussian_model.sh0
      sh_coefficients_rest := gaussian_model.shN
      densification_info := []
      settings := settings }
  { image := raster_outputs.get? 0
    alpha := raster_outputs.get? 1 }

/-!
## SplatData lifecycle operations

`Scene::rebuildCacheIfNeeded` (visualizer/scene/scene.cpp) is in the source
snapshot and is embedded below as `combine`.  The growth and prune rebuilds
live in the density-control implementation, which is not part of the
snapshot; they are modelled from the spec (growth = append via
concatenation, prune = boolean-mask compaction).
-/

/-- Number of scalar entries in the `shN` tensor (`numel()/…`, nonzero iff
the model carries any rest coefficients). -/
def SplatData.shN_numel (s : SplatData) : ℕ := 3 * (s.shN.map List.length).sum

/-- All per-primitive tensors share the leading dimension reported by
`size()`. -/
def SplatData.consistent (s : SplatData) : Prop :=
  s.sh0.length = s.size ∧ s.shN.length = s.size ∧ s.scaling.length = s.size ∧
    s.rotation.length = s.size ∧ s.opacity.length = s.size

instance (s : SplatData) : Decidable s.consistent := by
  unfold SplatData.consistent; infer_instance

/-- One model's rows of the combined `shN` tensor in
`Scene::rebuildCacheIfNeeded`: the tensor is zero-initialised with
`shN_coeffs` columns and, when the model has rest coefficients, its first
`copy_coeffs = min(model.shN.size(1), shN_coeffs)` columns are copied in.
The block always has exactly `model.size()` rows. -/
def combinedShNBlock (cols : ℕ) (m : SplatData) : List (List Vec3q) :=
  if 0 < cols ∧ 0 < m.shN_numel then
    let copy_coeffs := min (m.shN.headD []).length cols
    (List.range m.size).map (fun i =>
      ((m.shN.getD i []).take copy_coeffs) ++
        List.replicate (cols - copy_coeffs) ((0 : ℚ), (0 : ℚ), (0 : ℚ)))
  else
    List.replicate m.size (List.replicate cols ((0 : ℚ), (0 : ℚ), (0 : ℚ)))

/-- Embedding of `Scene::rebuildCacheIfNeeded` (scene.cpp lines 120-212):
the combined model's tensors are the concatenation of the visible models'
tensors (with `shN` padded to the maximal SH coefficient count), and the
result is constructed with the accumulated statistics. -/
def combineModels (models : List SplatData) : SplatData :=
  let maxDeg := (models.map (·.active_sh_degree)).foldl max 0
  let hasShN := models.any (fun m => 0 < m.shN_numel)
  let cols := if hasShN then (maxDeg + 1) * (maxDeg + 1) - 1 else 0
  { active_sh_degree := maxDeg
    max_sh_degree := maxDeg
    scene_scale := (models.map (·.scene_scale)).sum / (models.length : ℚ)
    means := (models.map (·.means)).flatten
    sh0 := (models.map (·.sh0)).flatten
    shN := (models.map (combinedShNBlock cols)).flatten
    scaling := (models.map (·.scaling)).flatten
    rotation := (models.map (·.rotation)).flatten
    opacity := (models.map (·.opacity)).flatten }

/-- New rows appended to every per-primitive tensor by a growth step. -/
structure GrowthBlock where
  means : List Vec3q
  sh0 : List (List Vec3q)
  shN : List (List Vec3q)
  scaling : List Vec3q
  rotation : List Vec4q
  opacity : List ℚ
  deriving DecidableEq, Repr

/-- The appended rows are themselves consistent. -/
def GrowthBlock.consistent (b : GrowthBlock) : Prop :=
  b.sh0.length = b.means.length ∧ b.shN.length = b.means.length ∧
    b.scaling.length = b.means.length ∧ b.rotation.length = b.means.length ∧
    b.opacity.length = b.means.length

instance (b : GrowthBlock) : Decidable b.consistent := by
  unfold GrowthBlock.consistent; infer_instance

/-- Modelled from the spec: the density-control growth rebuild ("append via
concatenation for growth") — the splat_data/density-control implementation
is not in the source snapshot.  Every per-primitive tensor receives the
corresponding rows of the growth block. -/
def SplatData.grow (s : SplatData) (b : GrowthBlock) : SplatData :=
  { s with
    means := s.means ++ b.means
    sh0 := s.sh0 ++ b.sh0
    shN := s.shN ++ b.shN
    scaling := s.scaling ++ b.scaling
    rotation := s.rotation ++ b.rotation
    opacity := s.opacity ++ b.opacity }

/-- Keep the rows whose mask entry is `true`. -/
def maskCompact (keep : List Bool) (xs : List α) : List α :=
  ((xs.zip keep).filter (·.2)).map (·.1)

/-- Modelled from the spec: the density-control prune rebuild
("boolean-mask compaction") — the splat_data/density-control implementation
is not in the source snapshot.  The same boolean mask is applied to every
per-primitive tensor. -/
def SplatData.prune (s : SplatData) (keep : List Bool) : SplatData :=
  { s with
    means := maskCompact keep s.means
    sh0 := maskCompact keep s.sh0
    shN := maskCompact keep s.shN
    scaling := maskCompact keep s.scaling
    rotation := maskCompact keep s.rotation
    opacity := maskCompact keep s.opacity }

/-!
## Adam optimizer step (src/fastgs/optimizer/include/adam_api.h)
-/

/-- Four-way zip used to run the per-element Adam kernel over the tensors. -/
def zipWith4 (f : α → β → γ → δ → ε) : List α → List β → List γ → List δ → List ε
  | a :: as, b :: bs, c :: cs, d :: ds => f a b c d :: zipWith4 f as bs cs ds
  | _, _, _, _ => []

/-- Modelled from the spec: the CUDA kernel behind
`fast_gs::optimizer::adam_step_wrapper` is not in the source snapshot (only
its declaration, adam_api.h lines 7-17); the per-element update follows the
spec contract
`moment1 = beta1*moment1 + (1-beta1)*grad`,
`moment2 = beta2*moment2 + (1-beta2)*grad²`,
`param -= lr * (moment1/bias_correction1) / (sqrt(moment2/bias_correction2_sqrt_term) + eps)`.
Returns `(param, moment1, moment2)` after the step. -/
noncomputable def adamElement (lr beta1 beta2 eps bc1 bc2s : ℝ) (p m1 m2 g : ℝ) : ℝ × ℝ × ℝ :=
  let m1n := beta1 * m1 + (1 - beta1) * g
  let m2n := beta2 * m2 + (1 - beta2) * g ^ 2
  (p - lr * (m1n / bc1) / (Real.sqrt (m2n / bc2s) + eps), m1n, m2n)

/-- The tensors visible to `adam_step_wrapper`: the three it may write, the
const gradient, and every other live tensor of the program (`others`),
which the kernel must leave untouched. -/
structure AdamTensors where
  param : List ℝ
  exp_avg : List ℝ
  exp_avg_sq : List ℝ
  param_grad : List ℝ
  others : List (List ℝ)

/-- Modelled from the spec: `adam_step_wrapper` updates `param`, `exp_avg`
and `exp_avg_sq` in place, element by element, and touches nothing else. -/
noncomputable def adam_step_wrapper (st : AdamTensors)
    (lr beta1 beta2 eps bc1 bc2s : ℝ) : AdamTensors :=
  { st with
    param := zipWith4 (fun p m1 m2 g => (adamElement lr beta1 beta2 eps bc1 bc2s p m1 m2 g).1)
      st.param st.exp_avg st.exp_avg_sq st.param_grad
    exp_avg := zipWith4 (fun p m1 m2 g => (adamElement lr beta1 beta2 eps bc1 bc2s p m1 m2 g).2.1)
      st.param st.exp_avg st.exp_avg_sq st.param_grad
    exp_avg_sq := zipWith4 (fun p m1 m2 g => (adamElement lr beta1 beta2 eps bc1 bc2s p m1 m2 g).2.2)
      st.param st.exp_avg st.exp_avg_sq st.param_grad }

/-!
## Density-control population cap (src/src/parameters.cpp `max_cap`)
-/

/-- One densify cycle's bookkeeping: how many rows the prune mask removes
and how many rows the clone/split heuristics want to add. -/
structure DensifyCycle where
  pruned : ℕ
  grown : ℕ
  deriving DecidableEq, Repr

/-- Modelled from the spec: the density-control strategy implementation is
not in the source snapshot (only the `max_cap` hyperparameter,
parameters.cpp lines 233-235).  A densify step prunes, then grows; with
`max_cap` configured the cap is a hard ceiling — qualifying Gaussians are
not added past it, and a compensating prune keeps the result at or below
the cap. -/
def densify_step (max_cap : Option ℕ) (n : ℕ) (cyc : DensifyCycle) : ℕ :=
  let afterPrune := n - cyc.pruned
  match max_cap with
  | none => afterPrune + cyc.grown
  | some cap => min (afterPrune + cyc.grown) cap

/-- Population size after running a sequence of densify cycles. -/
def run_densify (max_cap : Option ℕ) (n0 : ℕ) (cycles : List DensifyCycle) : ℕ :=
  cycles.foldl (densify_step max_cap) n0

/-!
## transforms-JSON reader (src/src/transforms_reader.cpp)
-/

/-- One entry of the `frames` array. -/
structure TransformFrame where
  file_path : String
  transform_matrix : Option (List (List ℚ))
  deriving DecidableEq, Repr

/-- The parsed fields of a transforms JSON file that the reader consults
(JSON parsing itself is an external collaborator). -/
structure TransformsJson where
  w : Option ℤ
  h : Option ℤ
  fl_x : Option ℚ
  camera_angle_x : Option ℚ
  fl_y : Option ℚ
  camera_angle_y : Option ℚ
  cx : Option ℚ
  cy : Option ℚ
  k1 : Option ℚ
  k2 : Option ℚ
  p1 : Option ℚ
  p2 : Option ℚ
  frames : List TransformFrame
  deriving DecidableEq, Repr

/-- Embedding of `fov_rad_to_focal_length` (transforms_reader.cpp lines
21-23); `tanQ` stands for the C library tangent. -/
def fov_rad_to_focal_length (tanQ : ℚ → ℚ) (resolution : ℤ) (fov_rad : ℚ) : ℚ :=
  (1 / 2) * (resolution : ℚ) / tanQ ((1 / 2) * fov_rad)

/-- The axis flip of transforms_reader.cpp line 180: columns 1 and 2 of the
first three rows of the camera-to-world matrix are negated. -/
def flip_yz (c2w : Matq) : Matq :=
  (List.range 4).map fun i =>
    (List.range 4).map fun j =>
      if i < 3 ∧ (j = 1 ∨ j = 2) then -(entry c2w i j) else entry c2w i j

/-- Colmap camera model identifiers (loader/formats/colmap.cpp). -/
inductive CAMERA_MODEL where
  | SIMPLE_PINHOLE
  | PINHOLE
  | SIMPLE_RADIAL
  | RADIAL
  | OPENCV
  | OPENCV_FISHEYE
  | FULL_OPENCV
  | FOV
  | SIMPLE_RADIAL_FISHEYE
  | RADIAL_FISHEYE
  | THIN_PRISM_FISHEYE
  | UNDEFINED
  deriving DecidableEq, Repr

/-- Embedding of `gs::loader::CameraData` with the fields the loaders
assign.  The extrinsic rotation/translation are carried as `R` and `T`. -/
structure CameraData where
  camera_ID : ℕ := 0
  camera_model : CAMERA_MODEL := .UNDEFINED
  width : ℤ := 0
  height : ℤ := 0
  params : List ℚ := []
  focal_x : ℚ := 0
  focal_y : ℚ := 0
  center_x : ℚ := 0
  center_y : ℚ := 0
  radial_distortion : List ℚ := []
  tangential_distortion : List ℚ := []
  camera_model_type : CameraModelType := .PINHOLE
  image_path : String := ""
  image_name : String := ""
  R : Matq := []
  T : List ℚ := []
  deriving DecidableEq, Repr

def errNoDims : String := "Error while trying to read image dimensions"

def errNoAngleY : String := "no camera_angle_y expected w!=h"

def errDistortion : String := "GS don't support distortion for now"

def errNoTransformMatrix : String := "expected all frames to contain transform_matrix"

def errTransformMatrixDims : String := "transform_matrix has the wrong dimensions"

/-- Resolve image width/height: taken from the JSON when both keys are
present, otherwise read from the first frame's image file (an external
load whose outcome is `firstImageDims`). -/
def resolve_dims (jw jh : Option ℤ) (firstImageDims : Option (ℤ × ℤ)) :
    Except String (ℤ × ℤ) :=
  match jw, jh with
  | some w, some h => .ok (w, h)
  | _, _ =>
    match firstImageDims with
    | some wh => .ok wh
    | none => .error errNoDims

/-- Resolve `fl_x` (transforms_reader.cpp lines 105-110): explicit value,
else derived from `camera_angle_x`, else the initial `-1`. -/
def resolve_fl_x (tanQ : ℚ → ℚ) (w : ℤ) (j : TransformsJson) : ℚ :=
  match j.fl_x with
  | some v => v
  | none =>
    match j.camera_angle_x with
    | some a => fov_rad_to_focal_length tanQ w a
    | none => -1

/-- Resolve `fl_y` (transforms_reader.cpp lines 112-121): explicit value,
else derived from `camera_angle_y`, else equal to `fl_x` — but only for
square images. -/
def resolve_fl_y (tanQ : ℚ → ℚ) (w h : ℤ) (fl_x : ℚ) (j : TransformsJson) :
    Except String ℚ :=
  match j.fl_y with
  | some v => .ok v
  | none =>
    match j.camera_angle_y with
    | some a => .ok (fov_rad_to_focal_length tanQ h a)
    | none => if w ≠ h then .error errNoAngleY else .ok fl_x

/-- Per-frame camera assembly (transforms_reader.cpp lines 158-217).  The
pose pipeline of lines 182-195 (matrix inverse via torch, Y-axis fix with
real trigonometry, extraction of R and T) is an external numeric routine
abstracted as `pose_of`, fed the axis-flipped camera-to-world matrix. -/
def frame_to_camera (pose_of : Matq → Matq × List ℚ)
    (w h : ℤ) (fl_x fl_y cx cy : ℚ) (counter : ℕ) (frame : TransformFrame) :
    Except String CameraData :=
  match frame.transform_matrix with
  | none => .error errNoTransformMatrix
  | some m =>
    if m.length ≠ 4 then .error errTransformMatrixDims
    else
      let rt := pose_of (flip_yz m)
      .ok { camera_ID := counter
            width := w
            height := h
            focal_x := fl_x
            focal_y := fl_y
            center_x := cx
            center_y := cy
            camera_model_type := .PINHOLE
            image_path := frame.file_path
            image_name := frame.file_path
            R := rt.1
            T := rt.2 }

/-- Embedding of `read_transforms_cameras_and_images`
(transforms_reader.cpp lines 60-223), starting from the parsed JSON.
`tanQ` models the C tangent, `pose_of` the torch pose pipeline, and
`firstImageDims` the external image probe used when `w`/`h` are missing. -/
def read_transforms_cameras_and_images (tanQ : ℚ → ℚ)
    (pose_of : Matq → Matq × List ℚ) (j : TransformsJson)
    (firstImageDims : Option (ℤ × ℤ)) :
    Except String (List CameraData × Vec3q) := do
  let wh ← resolve_dims j.w j.h firstImageDims
  let fl_x := resolve_fl_x tanQ wh.1 j
  let fl_y ← resolve_fl_y tanQ wh.1 wh.2 fl_x j
  let cx := (j.cx).getD ((1 / 2 : ℚ) * (wh.1 : ℚ))
  let cy := (j.cy).getD ((1 / 2 : ℚ) * (wh.2 : ℚ))
  let k1 := (j.k1).getD 0
  let k2 := (j.k2).getD 0
  let p1 := (j.p1).getD 0
  let p2 := (j.p2).getD 0
  if 0 < k1 ∨ 0 < k2 ∨ 0 < p1 ∨ 0 < p2 then
    .error errDistortion
  else do
    let cams ← (j.frames.enum).mapM fun cf =>
      frame_to_camera pose_of wh.1 wh.2 fl_x fl_y cx cy cf.1 cf.2
    .ok (cams, ((0 : ℚ), (0 : ℚ), (0 : ℚ)))

/-!
## Random point cloud (src/src/transforms_reader.cpp lines 225-238)
-/

/-- Point cloud as produced by the loaders: float positions, uint8 colors. -/
structure PointCloudData where
  positions : List Vec3q
  colors : List (ℕ × ℕ × ℕ)
  deriving DecidableEq, Repr

/-- Modelled from the spec: torch's global random generator (an external
library).  The generator is a deterministic state machine; `manual_seed`
replaces the state by the seed. -/
structure TorchRNG where
  state : ℕ
  deriving DecidableEq, Repr

/-- Modelled from the spec: `torch::manual_seed`. -/
def torch_manual_seed (seed : ℕ) : TorchRNG := ⟨seed⟩

/-- Modelled from the spec: one generator advance (a 64-bit LCG stands in
for torch's engine; any deterministic engine supports the claims). -/
def rng_next (s : ℕ) : ℕ :=
  (6364136223846793005 * s + 1442695040888963407) % (2 ^ 64)

/-- Modelled from the spec: one uniform draw in `[0,1)` from the engine. -/
def rng_unit (s : ℕ) : ℚ := ((s % 2 ^ 53 : ℕ) : ℚ) / 2 ^ 53

/-- Draw one 3-component row in `[0,1)³`, advancing the state. -/
def rand_row (s : ℕ) : Vec3q × ℕ :=
  let s1 := rng_next s
  let s2 := rng_next s1
  let s3 := rng_next s2
  ((rng_unit s1, rng_unit s2, rng_unit s3), s3)

/-- Modelled from the spec: `torch::rand({n, 3})` on the global generator. -/
def torch_rand3 : ℕ → ℕ → List Vec3q × ℕ
  | 0, s => ([], s)
  | n + 1, s =>
    let v := rand_row s
    let rest := torch_rand3 n v.2
    (v.1 :: rest.1, rest.2)

/-- Modelled from the spec: `torch::randint(0, 256, {n, 3})` on the global
generator. -/
def torch_randint3 : ℕ → ℕ → List (ℕ × ℕ × ℕ) × ℕ
  | 0, s => ([], s)
  | n + 1, s =>
    let s1 := rng_next s
    let s2 := rng_next s1
    let s3 := rng_next s2
    let rest := torch_randint3 n s3
    ((s1 % 256, s2 % 256, s3 % 256) :: rest.1, rest.2)

/-- Embedding of `generate_random_point_cloud` (transforms_reader.cpp lines
225-238): reset the global seed to 8128, draw `10000×3` uniforms in
`[0,1)`, rescale to `[-1,1)`, draw `10000×3` random colors. -/
def generate_random_point_cloud (g : TorchRNG) : PointCloudData × TorchRNG :=
  let numInitGaussian := 10000
  let seed := 8128
  let g0 := torch_manual_seed seed
  let r := torch_rand3 numInitGaussian g0.state
  let positions := r.1.map fun v => (2 * v.1 - 1, 2 * v.2.1 - 1, 2 * v.2.2 - 1)
  let c := torch_randint3 numInitGaussian r.2
  (⟨positions, c.1⟩, ⟨c.2⟩)

/-!
## COLMAP camera assembly (src/src/loader/formats/colmap.cpp)
-/

/-- Embedding of `gs::loader::Image` (colmap.cpp lines 53-67): the per-view
record read from `images.bin`/`images.txt`. -/
structure ColmapImage where
  camera_id : ℕ
  name : String
  qvec : Vec4q
  tvec : List ℚ
  deriving DecidableEq, Repr

/-- Embedding of `qvec2rotmat` (colmap.cpp lines 30-51).  The C++ first
normalises `q`; every matrix entry is a product of two normalised
components, so it equals the corresponding raw product divided by the
squared norm, which is exact rational arithmetic. -/
def qvec2rotmat (q : Vec4q) : Matq :=
  let (w, x, y, z) := q
  let n := w * w + x * x + y * y + z * z
  [[1 - 2 * (y * y + z * z) / n, 2 * (x * y - z * w) / n, 2 * (x * z + y * w) / n],
   [2 * (x * y + z * w) / n, 1 - 2 * (x * x + z * z) / n, 2 * (y * z - x * w) / n],
   [2 * (x * z - y * w) / n, 2 * (y * z + x * w) / n, 1 - 2 * (x * x + y * y) / n]]

def errImagesFolder : String := "Images folder does not exist"

def errCameraNotFound : String := "Camera ID not found"

def errThinPrism : String :=
  "THIN_PRISM_FISHEYE camera model is not supported but could be implemented in 3DGUT pretty easily"

def errFovModel : String := "FOV camera model is not supported."

def errUnsupportedModel : String := "Unsupported camera model"

/-- Embedding of the per-camera `switch` of `read_colmap_cameras`
(colmap.cpp lines 682-845): extract focal lengths, principal point and
distortion from `params` according to the COLMAP model, and set the
`gsplat` camera model tag; `THIN_PRISM_FISHEYE`, `FOV` and unknown models
throw. -/
def assign_intrinsics (cam : CameraData) : Except String CameraData :=
  let p := fun i => cam.params.getD i 0
  match cam.camera_model with
  | .SIMPLE_PINHOLE =>
    .ok { cam with focal_x := p 0, focal_y := p 0, center_x := p 1, center_y := p 2,
                   camera_model_type := .PINHOLE }
  | .PINHOLE =>
    .ok { cam with focal_x := p 0, focal_y := p 1, center_x := p 2, center_y := p 3,
                   camera_model_type := .PINHOLE }
  | .SIMPLE_RADIAL =>
    .ok { cam with focal_x := p 0, focal_y := p 0, center_x := p 1, center_y := p 2,
                   radial_distortion := if p 3 = 0 then cam.radial_distortion else [p 3],
                   camera_model_type := .PINHOLE }
  | .RADIAL =>
    .ok { cam with focal_x := p 0, focal_y := p 0, center_x := p 1, center_y := p 2,
                   radial_distortion := [p 3, p 4],
                   camera_model_type := .PINHOLE }
  | .OPENCV =>
    .ok { cam with focal_x := p 0, focal_y := p 1, center_x := p 2, center_y := p 3,
                   radial_distortion := [p 4, p 5],
                   tangential_distortion := [p 6, p 7],
                   camera_model_type := .PINHOLE }
  | .FULL_OPENCV =>
    .ok { cam with focal_x := p 0, focal_y := p 1, center_x := p 2, center_y := p 3,
                   radial_distortion := [p 4, p 5, p 8, p 9, p 10, p 11],
                   tangential_distortion := [p 6, p 7],
                   camera_model_type := .PINHOLE }
  | .OPENCV_FISHEYE =>
    .ok { cam with focal_x := p 0, focal_y := p 1, center_x := p 2, center_y := p 3,
                   radial_distortion := [p 4, p 5, p 6, p 7],
                   camera_model_type := .FISHEYE }
  | .RADIAL_FISHEYE =>
    .ok { cam with focal_x := p 0, focal_y := p 0, center_x := p 1, center_y := p 2,
                   radial_distortion := [p 3, p 4],
                   camera_model_type := .FISHEYE }
  | .SIMPLE_RADIAL_FISHEYE =>
    .ok { cam with focal_x := p 0, focal_y := p 0, center_x := p 1, center_y := p 2,
                   radial_distortion := [p 3],
                   camera_model_type := .FISHEYE }
  | .THIN_PRISM_FISHEYE => .error errThinPrism
  | .FOV => .error errFovModel
  | .UNDEFINED => .error errUnsupportedModel

/-- One iteration of the assembly loop of `read_colmap_cameras` (colmap.cpp
lines 663-849): look up the image's camera, attach image path/name and the
pose derived from `qvec`/`tvec`, then run the intrinsics switch. -/
def assemble_camera (images_path : String) (cams : List (ℕ × CameraData))
    (img : ColmapImage) : Except String CameraData :=
  match (cams.lookup img.camera_id) with
  | none => .error errCameraNotFound
  | some c =>
    assign_intrinsics
      { c with image_path := images_path ++ img.name
               image_name := img.name
               R := qvec2rotmat img.qvec
               T := img.tvec }

/-- Embedding of `apply_dimension_correction` (colmap.cpp lines 286-300):
overwrite the dimensions with the actual ones and rescale focal lengths
and principal point; distortion parameters are untouched. -/
def apply_dimension_correction (scale_x scale_y : ℚ) (actual_w actual_h : ℤ)
    (cam : CameraData) : CameraData :=
  { cam with width := actual_w
             height := actual_h
             focal_x := cam.focal_x * scale_x
             focal_y := cam.focal_y * scale_y
             center_x := cam.center_x * scale_x
             center_y := cam.center_y * scale_y }

/-- Embedding of the dimension-verification epilogue of
`read_colmap_cameras` (colmap.cpp lines 851-879): probe the first camera's
image (`firstImageDims`, `none` when the file is absent); when the actual
dimensions differ from the COLMAP database by more than `1e-5` relative
scale, apply the correction to every camera — the function never fails. -/
def verify_dimensions (out : List CameraData)
    (firstImageDims : Option (ℤ × ℤ)) : List CameraData :=
  match out, firstImageDims with
  | c0 :: _, some (aw, ah) =>
    let scale_x : ℚ := (aw : ℚ) / (c0.width : ℚ)
    let scale_y : ℚ := (ah : ℚ) / (c0.height : ℚ)
    if |scale_x - 1| > 1 / 100000 ∨ |scale_y - 1| > 1 / 100000 then
      out.map (apply_dimension_correction scale_x scale_y aw ah)
    else out
  | _, _ => out

/-- Camera location in world space, `-Rᵀ·T` (colmap.cpp line 680). -/
def camera_location (c : CameraData) : Vec3q :=
  ( -(entry c.R 0 0 * c.T.getD 0 0 + entry c.R 1 0 * c.T.getD 1 0 + entry c.R 2 0 * c.T.getD 2 0),
    -(entry c.R 0 1 * c.T.getD 0 0 + entry c.R 1 1 * c.T.getD 1 0 + entry c.R 2 1 * c.T.getD 2 0),
    -(entry c.R 0 2 * c.T.getD 0 0 + entry c.R 1 2 * c.T.getD 1 0 + entry c.R 2 2 * c.T.getD 2 0) )

/-- Mean of the camera locations (`camera_locations.mean(0)`). -/
def mean_location (cs : List CameraData) : Vec3q :=
  let ls := cs.map camera_location
  ( (ls.map (·.1)).sum / (cs.length : ℚ),
    (ls.map (·.2.1)).sum / (cs.length : ℚ),
    (ls.map (·.2.2)).sum / (cs.length : ℚ) )

/-- Embedding of `read_colmap_cameras` (colmap.cpp lines 644-883).
`images_path_exists` models the filesystem check on the images folder and
`firstImageDims` the probe of the first image file. -/
def read_colmap_cameras (images_path_exists : Bool) (images_path : String)
    (cams : List (ℕ × CameraData)) (images : List ColmapImage)
    (firstImageDims : Option (ℤ × ℤ)) :
    Except String (List CameraData × Vec3q) := do
  if images_path_exists = false then
    .error errImagesFolder
  else do
    let out ← images.mapM (assemble_camera images_path cams)
    let out := verify_dimensions out firstImageDims
    .ok (out, mean_location out)

/-!
## Projection / tile intersection / rasterization pipeline (spec §4.1-§4.3)

Modelled from the spec: the fused fast-gs CUDA kernels (projection with
near/far culling, tile intersection, rasterization and their backward
passes) are declared in `rasterization_api.h` and called through
`FastGSRasterize` (fast_rasterizer_autograd.hpp), but their sources are not
in the snapshot.  The pipeline below follows spec §4.1-§4.3.  Real-valued
library functions (exp/sigmoid activations, square root) and the analytic
VJP taken on *visible* Gaussians are abstracted as parameters: the claims
under verification concern only culled Gaussians.
-/

/-- One raw Gaussian primitive as fed to the projection stage. -/
structure Gaussian where
  mean : Vec3q
  scale_raw : Vec3q
  quat_raw : Vec4q
  opacity_raw : ℚ
  deriving DecidableEq, Repr

/-- Per-Gaussian projection output (spec §4.1: radius 0 means culled). -/
structure ProjResult where
  radius : ℕ
  mean2d : ℚ × ℚ
  depth : ℚ
  conic : ℚ × ℚ × ℚ
  compensation : ℚ
  deriving DecidableEq, Repr

/-- Upstream gradients arriving at the projection backward (spec §4.1). -/
structure UpGrads where
  d_mean2d : ℚ × ℚ
  d_depth : ℚ
  d_conic : ℚ × ℚ × ℚ
  d_compensation : ℚ
  deriving DecidableEq, Repr

/-- Gradients the projection backward produces on the raw parameters. -/
structure ProjGrads where
  d_mean : Vec3q
  d_quat : Vec4q
  d_scale : Vec3q
  deriving DecidableEq, Repr

/-- The all-zero parameter gradient. -/
def ProjGrads.zero : ProjGrads :=
  ⟨(0, 0, 0), (0, 0, 0, 0), (0, 0, 0)⟩

/-- Real-valued library routines of the kernels, abstracted: `expQ` is the
scale activation, `sqrtQ` the square root, and `visible_vjp` the analytic
backward chain evaluated on a non-culled Gaussian. -/
structure NumericKernels where
  expQ : ℚ → ℚ
  sqrtQ : ℚ → ℚ
  visible_vjp : Gaussian → ProjResult → UpGrads → ProjGrads

/-- Camera-space position of a world point under the 4×4 transform. -/
def cam_space (w2c : Matq) (p : Vec3q) : Vec3q :=
  ( entry w2c 0 0 * p.1 + entry w2c 0 1 * p.2.1 + entry w2c 0 2 * p.2.2 + entry w2c 0 3,
    entry w2c 1 0 * p.1 + entry w2c 1 1 * p.2.1 + entry w2c 1 2 * p.2.2 + entry w2c 1 3,
    entry w2c 2 0 * p.1 + entry w2c 2 1 * p.2.1 + entry w2c 2 2 * p.2.2 + entry w2c 2 3 )

/-- Camera-space depth of a Gaussian's mean. -/
def cam_depth (st : FastGSSettings) (g : Gaussian) : ℚ :=
  (cam_space st.w2c g.mean).2.2

/-- The culled projection record: radius 0, everything else zeroed except
the depth. -/
def culledResult (tz : ℚ) : ProjResult :=
  { radius := 0, mean2d := (0, 0), depth := tz, conic := (0, 0, 0), compensation := 0 }

/-- Modelled from the spec (§4.1): project one Gaussian.  Depth outside
`(near_plane, far_plane)` is discarded with radius 0; otherwise the
camera-space covariance is pushed through the first-order perspective
Jacobian (EWA), `eps2d = 0.3` is added to the 2D diagonal, the conic is the
2×2 inverse, the radius is the 3-sigma extent from the dominant eigenvalue,
and splats rounding to radius 0 or falling fully outside the image are also
discarded. -/
def project_gaussian (nk : NumericKernels) (st : FastGSSettings)
    (g : Gaussian) : ProjResult :=
  let t := cam_space st.w2c g.mean
  let tx := t.1
  let ty := t.2.1
  let tz := t.2.2
  if tz ≤ st.near_plane ∨ st.far_plane ≤ tz then culledResult tz
  else
    let eps2d : ℚ := 3 / 10
    let qw := g.quat_raw.1
    let qx := g.quat_raw.2.1
    let qy := g.quat_raw.2.2.1
    let qz := g.quat_raw.2.2.2
    let n := qw * qw + qx * qx + qy * qy + qz * qz
    let Rg : Matrix (Fin 3) (Fin 3) ℚ := Matrix.of
      ![![1 - 2 * (qy * qy + qz * qz) / n, 2 * (qx * qy - qz * qw) / n, 2 * (qx * qz + qy * qw) / n],
        ![2 * (qx * qy + qz * qw) / n, 1 - 2 * (qx * qx + qz * qz) / n, 2 * (qy * qz - qx * qw) / n],
        ![2 * (qx * qz - qy * qw) / n, 2 * (qy * qz + qx * qw) / n, 1 - 2 * (qx * qx + qy * qy) / n]]
    let s0 := nk.expQ g.scale_raw.1
    let s1 := nk.expQ g.scale_raw.2.1
    let s2 := nk.expQ g.scale_raw.2.2
    let S2 : Matrix (Fin 3) (Fin 3) ℚ := Matrix.diagonal ![s0 ^ 2, s1 ^ 2, s2 ^ 2]
    let cov3d := Rg * S2 * Rg.transpose
    let W3 : Matrix (Fin 3) (Fin 3) ℚ := Matrix.of
      ![![entry st.w2c 0 0, entry st.w2c 0 1, entry st.w2c 0 2],
        ![entry st.w2c 1 0, entry st.w2c 1 1, entry st.w2c 1 2],
        ![entry st.w2c 2 0, entry st.w2c 2 1, entry st.w2c 2 2]]
    let covCam := W3 * cov3d * W3.transpose
    let J : Matrix (Fin 2) (Fin 3) ℚ := Matrix.of
      ![![st.focal_x / tz, 0, -(st.focal_x * tx) / tz ^ 2],
        ![0, st.focal_y / tz, -(st.focal_y * ty) / tz ^ 2]]
    let cov2d := J * covCam * J.transpose
    let a := cov2d 0 0 + eps2d
    let c := cov2d 1 1 + eps2d
    let b := cov2d 0 1
    let det0 := cov2d 0 0 * cov2d 1 1 - b ^ 2
    let det := a * c - b ^ 2
    let mean2x := st.focal_x * tx / tz + st.center_x
    let mean2y := st.focal_y * ty / tz + st.center_y
    let lamMax := ((a + c) + nk.sqrtQ ((a - c) ^ 2 + 4 * b ^ 2)) / 2
    let radius : ℤ := ⌈3 * nk.sqrtQ lamMax⌉
    if radius ≤ 0 ∨ mean2x + radius < 0 ∨ (st.width : ℚ) ≤ mean2x - radius ∨
        mean2y + radius < 0 ∨ (st.height : ℚ) ≤ mean2y - radius then
      culledResult tz
    else
      { radius := radius.toNat
        mean2d := (mean2x, mean2y)
        depth := tz
        conic := (c / det, -b / det, a / det)
        compensation := nk.sqrtQ (det0 / det) }

/-- Tile side in pixels (spec §4.2). -/
def tileSize : ℤ := 16

/-- One (tile, depth, gaussian) sort key emitted by tile intersection. -/
structure TileKey where
  tile : ℤ × ℤ
  depth : ℚ
  gid : ℕ
  deriving DecidableEq, Repr

/-- Tile coordinate range overlapped by a splat's square footprint
(spec §4.2), clamped to the tile grid of the viewport. -/
def tile_range (st : FastGSSettings) (pr : ProjResult) : List (ℤ × ℤ) :=
  let r : ℚ := (pr.radius : ℚ)
  let txMin : ℤ := max 0 ⌊(pr.mean2d.1 - r) / (tileSize : ℚ)⌋
  let txMax : ℤ := min ((st.width + tileSize - 1) / tileSize - 1) ⌊(pr.mean2d.1 + r) / (tileSize : ℚ)⌋
  let tyMin : ℤ := max 0 ⌊(pr.mean2d.2 - r) / (tileSize : ℚ)⌋
  let tyMax : ℤ := min ((st.height + tileSize - 1) / tileSize - 1) ⌊(pr.mean2d.2 + r) / (tileSize : ℚ)⌋
  ((List.range (txMax - txMin + 1).toNat).flatMap fun dx =>
    (List.range (tyMax - tyMin + 1).toNat).map fun dy =>
      (txMin + (dx : ℤ), tyMin + (dy : ℤ)))

/-- Modelled from the spec (§4.2): tile intersection emits one key per
overlapped tile per *visible* Gaussian (radius 0 ⇒ no key). -/
def tile_keys (st : FastGSSettings) (projs : List ProjResult) : List TileKey :=
  projs.enum.flatMap fun ip =>
    if ip.2.radius = 0 then []
    else (tile_range st ip.2).map fun t => { tile := t, depth := ip.2.depth, gid := ip.1 }

/-- Modelled from the spec (§4.1 backward): the projection backward routes
zero gradient to a culled Gaussian (saved radius 0) and otherwise runs the
analytic chain `visible_vjp`. -/
def projection_backward (nk : NumericKernels) (g : Gaussian)
    (pr : ProjResult) (up : UpGrads) : ProjGrads :=
  if pr.radius = 0 then ProjGrads.zero else nk.visible_vjp g pr up

/-- Empty string constant used by concrete test fixtures. -/
def emptyStr : String := ""

/-- Concrete camera for the `load_and_get_image` analysis: constructed with
camera dimensions 100×100. -/
def cameraFix : Camera :=
  Camera.construct [[1, 0, 0], [0, 1, 0], [0, 0, 1]] [0, 0, 0]
    100 100 50 50 [] [] .PINHOLE emptyStr emptyStr 100 100 0

/-- A decoded image whose dimensions (50×50) disagree with the camera. -/
def loadedFix : LoadedImage := ⟨[], 50, 50, 3⟩

/-- Default Gaussian used for out-of-range list access. -/
def gdefault : Gaussian := ⟨(0, 0, 0), (0, 0, 0), (1, 0, 0, 0), 0⟩

/-!
## Helper lemmas
-/

/-- The compacted length depends only on the input length. -/
theorem maskCompact_length_eq (keep : List Bool) :
    ∀ (xs : List α) (ys : List β), xs.length = ys.length →
      (maskCompact keep xs).length = (maskCompact keep ys).length := by
  induction keep with
  | nil =>
    intro xs ys _
    simp [maskCompact]
  | cons k ks ih =>
    intro xs ys h
    cases xs with
    | nil => cases ys with
      | nil => rfl
      | cons y ys => simp at h
    | cons x xs => cases ys with
      | nil => simp at h
      | cons y ys =>
        simp only [List.length_cons, Nat.succ.injEq] at h
        cases k with
        | false =>
          simpa [maskCompact, List.zip, List.zipWith] using ih xs ys h
        | true =>
          simpa [maskCompact, List.zip, List.zipWith] using ih xs ys h

/-- A `combinedShNBlock` always has exactly `size()` rows. -/
theorem combinedShNBlock_length (cols : ℕ) (m : SplatData) :
    (combinedShNBlock cols m).length = m.size := by
  unfold combinedShNBlock
  split <;> simp

/-!
## C4 — fast path ignores the background color
-/

/-- C4: in the fast rasterization path the background color is never
composited: for any camera, model and rasterizer kernel, `fast_rasterize`
returns identical image and alpha tensors for any two values of the
`bg_color` argument. -/
theorem fast_rasterize_background_independent {T : Type}
    (apply : FastGSInputs → List T) (cam : Camera) (model : SplatData)
    (bg1 bg2 : List ℚ) :
    fast_rasterize apply cam model bg1 = fast_rasterize apply cam model bg2 := rfl

/-!
## C6 — Camera mutability under load_and_get_image
-/

/-- C6 counterexample: `Camera::load_and_get_image` mutates the camera —
loading an image whose decoded dimensions differ from the construction-time
dimensions changes the `image_width` field, so the camera is not immutable
after construction as claimed. -/
theorem camera_image_width_mutated_by_load :
    ((cameraFix.load_and_get_image loadedFix).1.image_width ≠ cameraFix.image_width) := by
  decide

/-- C6 (amended): after `load_and_get_image`, every field set at
construction is unchanged *except* the image dimensions: the world-to-view
transform, focal lengths, principal point, distortion coefficients, camera
dimensions, model tag, names and uid are preserved, while `image_width` and
`image_height` become the decoded image's dimensions. -/
theorem camera_load_preserves_other_fields (cam : Camera) (res : LoadedImage) :
    ((cam.load_and_get_image res).1.uid = cam.uid ∧
     (cam.load_and_get_image res).1.focal_x = cam.focal_x ∧
     (cam.load_and_get_image res).1.focal_y = cam.focal_y ∧
     (cam.load_and_get_image res).1.center_x = cam.center_x ∧
     (cam.load_and_get_image res).1.center_y = cam.center_y ∧
     (cam.load_and_get_image res).1.radial_distortion = cam.radial_distortion ∧
     (cam.load_and_get_image res).1.tangential_distortion = cam.tangential_distortion ∧
     (cam.load_and_get_image res).1.camera_model_type = cam.camera_model_type ∧
     (cam.load_and_get_image res).1.image_name = cam.image_name ∧
     (cam.load_and_get_image res).1.image_path = cam.image_path ∧
     (cam.load_and_get_image res).1.camera_width = cam.camera_width ∧
     (cam.load_and_get_image res).1.camera_height = cam.camera_height ∧
     (cam.load_and_get_image res).1.world_view_transform = cam.world_view_transform) ∧
    (cam.load_and_get_image res).1.image_width = res.w ∧
    (cam.load_and_get_image res).1.image_height = res.h :=
  ⟨⟨rfl, rfl, rfl, rfl, rfl, rfl, rfl, rfl, rfl, rfl, rfl, rfl, rfl⟩, rfl, rfl⟩

/-!
## C5 — population cap under densification
-/

/-- C5: with `max_cap` configured, the population size is at most the cap
after every densify step, across arbitrarily many iterations: running any
nonempty sequence of densify cycles from any starting population ends at or
below the cap (and hence so does every intermediate post-densify state,
being the end state of a shorter nonempty run). -/
theorem densify_population_cap (cap n0 : ℕ) (cycles : List DensifyCycle)
    (h : cycles ≠ []) : run_densify (some cap) n0 cycles ≤ cap := by
  induction cycles generalizing n0 with
  | nil => exact absurd rfl h
  | cons c cs ih =>
    cases cs with
    | nil =>
      simp only [run_densify, List.foldl_cons, List.foldl_nil, densify_step]
      exact Nat.min_le_right _ _
    | cons d ds =>
      simpa [run_densify] using ih (densify_step (some cap) n0 c) (by simp)

/-- C5 witness: a cycle that wants to add 10 Gaussians to a population of 3
under a cap of 5 ends at the cap. -/
theorem densify_population_cap_witness :
    ([(⟨0, 10⟩ : DensifyCycle)] ≠ []) ∧ run_densify (some 5) 3 [⟨0, 10⟩] ≤ 5 :=
  ⟨by decide, densify_population_cap 5 3 [⟨0, 10⟩] (by decide)⟩

/-!
## C10 — deterministic random point cloud
-/

/-- Each uniform draw lies in `[0,1)`. -/
theorem rng_unit_bounds (s : ℕ) : 0 ≤ rng_unit s ∧ rng_unit s < 1 := by
  unfold rng_unit
  constructor
  · positivity
  · rw [div_lt_one (by positivity)]
    exact_mod_cast Nat.mod_lt s (by positivity)

/-- Unfolding of one `torch_rand3` draw. -/
theorem torch_rand3_succ (n s : ℕ) :
    torch_rand3 (n + 1) s =
      ((rand_row s).1 :: (torch_rand3 n (rand_row s).2).1,
       (torch_rand3 n (rand_row s).2).2) := rfl

/-- Unfolding of `generate_random_point_cloud`: the result never depends on
the incoming generator state. -/
theorem generate_random_point_cloud_eq (g : TorchRNG) :
    (generate_random_point_cloud g).1 =
      ⟨((torch_rand3 10000 8128).1).map
          (fun v => (2 * v.1 - 1, 2 * v.2.1 - 1, 2 * v.2.2 - 1)),
        (torch_randint3 10000 (torch_rand3 10000 8128).2).1⟩ := rfl

/-- `torch_rand3` yields exactly `n` rows. -/
theorem torch_rand3_length (n : ℕ) : ∀ s, (torch_rand3 n s).1.length = n := by
  induction n with
  | zero => intro s; rfl
  | succ n ih =>
    intro s
    simp [torch_rand3, rand_row, ih]

/-- `torch_randint3` yields exactly `n` rows. -/
theorem torch_randint3_length (n : ℕ) : ∀ s, (torch_randint3 n s).1.length = n := by
  induction n with
  | zero => intro s; rfl
  | succ n ih =>
    intro s
    simp [torch_randint3, ih]

/-- Every row drawn by `torch_rand3` lies in `[0,1)³`. -/
theorem torch_rand3_mem_bounds (n : ℕ) :
    ∀ s, ∀ v ∈ (torch_rand3 n s).1,
      (0 ≤ v.1 ∧ v.1 < 1) ∧ (0 ≤ v.2.1 ∧ v.2.1 < 1) ∧ (0 ≤ v.2.2 ∧ v.2.2 < 1) := by
  induction n with
  | zero => intro s v hv; simp [torch_rand3] at hv
  | succ n ih =>
    intro s v hv
    rw [torch_rand3_succ] at hv
    simp only [List.mem_cons] at hv
    rcases hv with hv | hv
    · subst hv
      exact ⟨rng_unit_bounds _, rng_unit_bounds _, rng_unit_bounds _⟩
    · exact ih _ v hv

/-- C10: `generate_random_point_cloud` resets the global seed to 8128 on
every call, so it is deterministic — any two calls (from any generator
states) return identical point clouds — and it returns exactly 10000
points whose position coordinates all lie in `[-1, 1]`. -/
theorem generate_random_point_cloud_spec (g1 g2 : TorchRNG) :
    (generate_random_point_cloud g1).1 = (generate_random_point_cloud g2).1 ∧
    (generate_random_point_cloud g1).1.positions.length = 10000 ∧
    (generate_random_point_cloud g1).1.colors.length = 10000 ∧
    ∀ p ∈ (generate_random_point_cloud g1).1.positions,
      (-1 ≤ p.1 ∧ p.1 ≤ 1) ∧ (-1 ≤ p.2.1 ∧ p.2.1 ≤ 1) ∧ (-1 ≤ p.2.2 ∧ p.2.2 ≤ 1) := by
  refine ⟨rfl, ?_, ?_, ?_⟩
  · rw [generate_random_point_cloud_eq]
    simp [torch_rand3_length]
  · rw [generate_random_point_cloud_eq]
    simp [torch_randint3_length]
  · intro p hp
    rw [generate_random_point_cloud_eq] at hp
    simp only [List.mem_map] at hp
    obtain ⟨v, hv, rfl⟩ := hp
    have hb := torch_rand3_mem_bounds 10000 8128 v hv
    obtain ⟨⟨h1a, h1b⟩, ⟨h2a, h2b⟩, ⟨h3a, h3b⟩⟩ := hb
    dsimp only
    refine ⟨⟨by linarith, by linarith⟩, ⟨by linarith, by linarith⟩, ⟨by linarith, by linarith⟩⟩

/-!
## C2 — tensor leading-dimension invariant
-/

/-- C2: every per-primitive tensor keeps the same leading dimension,
equal to `size()`, throughout the SplatData lifecycle: at construction
from consistent tensors, after a growth (concatenation) step, after a
prune (mask-compaction) step, and after combining visible models. -/
theorem splat_tensor_dim_invariant :
    (∀ (a b : ℕ) (ss : ℚ) (ms : List Vec3q) (s0 sN : List (List Vec3q))
        (sc : List Vec3q) (rot : List Vec4q) (op : List ℚ),
        s0.length = ms.length → sN.length = ms.length → sc.length = ms.length →
        rot.length = ms.length → op.length = ms.length →
        (SplatData.mk a b ss ms s0 sN sc rot op).consistent) ∧
    (∀ (s : SplatData) (blk : GrowthBlock), s.consistent → blk.consistent →
        (s.grow blk).consistent) ∧
    (∀ (s : SplatData) (keep : List Bool), s.consistent →
        (s.prune keep).consistent) ∧
    (∀ (models : List SplatData), (∀ m ∈ models, m.consistent) →
        (combineModels models).consistent) := by
  refine ⟨?_, ?_, ?_, ?_⟩
  · intro a b ss ms s0 sN sc rot op h1 h2 h3 h4 h5
    exact ⟨h1, h2, h3, h4, h5⟩
  · intro s blk hs hb
    obtain ⟨hs1, hs2, hs3, hs4, hs5⟩ := hs
    obtain ⟨hb1, hb2, hb3, hb4, hb5⟩ := hb
    simp only [SplatData.size] at *
    refine ⟨?_, ?_, ?_, ?_, ?_⟩ <;>
      simp only [SplatData.grow, SplatData.size, List.length_append] <;> omega
  · intro s keep hs
    obtain ⟨hs1, hs2, hs3, hs4, hs5⟩ := hs
    exact ⟨maskCompact_length_eq keep _ _ hs1, maskCompact_length_eq keep _ _ hs2,
           maskCompact_length_eq keep _ _ hs3, maskCompact_length_eq keep _ _ hs4,
           maskCompact_length_eq keep _ _ hs5⟩
  · intro models hm
    have hsum : ∀ (f g : SplatData → ℕ), (∀ m ∈ models, f m = g m) →
        ((models.map f).sum = (models.map g).sum) := fun f g h =>
      congrArg List.sum (List.map_congr_left h)
    refine ⟨?_, ?_, ?_, ?_, ?_⟩ <;>
      simp only [SplatData.consistent, combineModels, SplatData.size,
        List.length_flatten, List.map_map, Function.comp_def]
    · exact hsum _ _ fun m hm2 => (hm m hm2).1
    · exact hsum _ _ fun m hm2 => combinedShNBlock_length _ m
    · exact hsum _ _ fun m hm2 => (hm m hm2).2.2.1
    · exact hsum _ _ fun m hm2 => (hm m hm2).2.2.2.1
    · exact hsum _ _ fun m hm2 => (hm m hm2).2.2.2.2

/-- Concrete one-primitive model exercising the lifecycle. -/
def splatFix : SplatData :=
  ⟨0, 0, 1, [(0, 0, 0)], [[(1, 0, 0)]], [[]], [(0, 0, 0)], [(1, 0, 0, 0)], [0]⟩

/-- Concrete growth block with one appended primitive. -/
def growthFix : GrowthBlock :=
  ⟨[(1, 1, 1)], [[(0, 1, 0)]], [[]], [(0, 0, 0)], [(1, 0, 0, 0)], [1]⟩

/-- C2 witness: the invariant holds concretely after a grow, a prune and a
combine of one-primitive models. -/
theorem splat_tensor_dim_invariant_witness :
    (splatFix.grow growthFix).consistent ∧
    (splatFix.prune [true, false]).consistent ∧
    (combineModels [splatFix, splatFix]).consistent :=
  ⟨splat_tensor_dim_invariant.2.1 splatFix growthFix (by decide) (by decide),
   splat_tensor_dim_invariant.2.2.1 splatFix [true, false] (by decide),
   splat_tensor_dim_invariant.2.2.2 [splatFix, splatFix]
     (by intro m hm2; fin_cases hm2 <;> decide)⟩

/-!
## C3 — Adam step contract
-/

/-- Length of a four-way zip over equal-length lists. -/
theorem zipWith4_length (f : α → β → γ → δ → ε) :
    ∀ (as : List α) (bs : List β) (cs : List γ) (ds : List δ),
      bs.length = as.length → cs.length = as.length → ds.length = as.length →
      (zipWith4 f as bs cs ds).length = as.length := by
  intro as
  induction as with
  | nil => intro bs cs ds _ _ _; rfl
  | cons a as ih =>
    intro bs cs ds h1 h2 h3
    cases bs with
    | nil => simp at h1
    | cons b bs =>
      cases cs with
      | nil => simp at h2
      | cons c cs =>
        cases ds with
        | nil => simp at h3
        | cons d ds =>
          simp only [List.length_cons] at h1 h2 h3 ⊢
          rw [zipWith4]
          simp only [List.length_cons]
          rw [ih bs cs ds (by omega) (by omega) (by omega)]

/-- Element access of a four-way zip over equal-length lists. -/
theorem zipWith4_getD (f : α → β → γ → δ → ε)
    (da : α) (db : β) (dc : γ) (dd : δ) (de : ε) :
    ∀ (as : List α) (bs : List β) (cs : List γ) (ds : List δ),
      bs.length = as.length → cs.length = as.length → ds.length = as.length →
      ∀ i, i < as.length →
        (zipWith4 f as bs cs ds).getD i de =
          f (as.getD i da) (bs.getD i db) (cs.getD i dc) (ds.getD i dd) := by
  intro as
  induction as with
  | nil => intro bs cs ds _ _ _ i hi; simp at hi
  | cons a as ih =>
    intro bs cs ds h1 h2 h3 i hi
    cases bs with
    | nil => simp at h1
    | cons b bs =>
      cases cs with
      | nil => simp at h2
      | cons c cs =>
        cases ds with
        | nil => simp at h3
        | cons d ds =>
          simp only [List.length_cons] at h1 h2 h3
          cases i with
          | zero => rfl
          | succ i =>
            simp only [zipWith4, List.getD_cons_succ]
            exact ih bs cs ds (by omega) (by omega) (by omega) i
              (by simpa using Nat.lt_of_succ_lt_succ hi)

/-- C3: one optimizer step performs the in-place Adam update — the new
first and second moments follow the exponential-moving-average recurrences
on the old state, the parameter decreases by the bias-corrected
moment quotient, the tensor lengths are preserved, and every tensor other
than `param`, `exp_avg` and `exp_avg_sq` is unchanged. -/
theorem adam_step_contract (st : AdamTensors) (lr beta1 beta2 eps bc1 bc2s : ℝ)
    (h1 : st.exp_avg.length = st.param.length)
    (h2 : st.exp_avg_sq.length = st.param.length)
    (h3 : st.param_grad.length = st.param.length) :
    (∀ i, i < st.param.length →
        (adam_step_wrapper st lr beta1 beta2 eps bc1 bc2s).exp_avg.getD i 0 =
            beta1 * st.exp_avg.getD i 0 + (1 - beta1) * st.param_grad.getD i 0 ∧
        (adam_step_wrapper st lr beta1 beta2 eps bc1 bc2s).exp_avg_sq.getD i 0 =
            beta2 * st.exp_avg_sq.getD i 0 + (1 - beta2) * st.param_grad.getD i 0 ^ 2 ∧
        (adam_step_wrapper st lr beta1 beta2 eps bc1 bc2s).param.getD i 0 =
            st.param.getD i 0 -
              lr * ((beta1 * st.exp_avg.getD i 0 + (1 - beta1) * st.param_grad.getD i 0) / bc1) /
                (Real.sqrt ((beta2 * st.exp_avg_sq.getD i 0 +
                    (1 - beta2) * st.param_grad.getD i 0 ^ 2) / bc2s) + eps)) ∧
    (adam_step_wrapper st lr beta1 beta2 eps bc1 bc2s).param_grad = st.param_grad ∧
    (adam_step_wrapper st lr beta1 beta2 eps bc1 bc2s).others = st.others ∧
    (adam_step_wrapper st lr beta1 beta2 eps bc1 bc2s).param.length = st.param.length ∧
    (adam_step_wrapper st lr beta1 beta2 eps bc1 bc2s).exp_avg.length = st.param.length ∧
    (adam_step_wrapper st lr beta1 beta2 eps bc1 bc2s).exp_avg_sq.length = st.param.length := by
  refine ⟨?_, rfl, rfl, ?_, ?_, ?_⟩
  · intro i hi
    exact ⟨zipWith4_getD _ 0 0 0 0 0 _ _ _ _ h1 h2 h3 i hi,
           zipWith4_getD _ 0 0 0 0 0 _ _ _ _ h1 h2 h3 i hi,
           zipWith4_getD _ 0 0 0 0 0 _ _ _ _ h1 h2 h3 i hi⟩
  · exact zipWith4_length _ _ _ _ _ h1 h2 h3
  · exact zipWith4_length _ _ _ _ _ h1 h2 h3
  · exact zipWith4_length _ _ _ _ _ h1 h2 h3

/-- Concrete Adam tensors: one parameter, zero moments, gradient two, and
one unrelated tensor. -/
noncomputable def adamFix : AdamTensors := ⟨[1], [0], [0], [2], [[5]]⟩

/-- C3 witness: the contract applied to `adamFix` with
`lr = bc1 = bc2s = eps = 1` and zero betas. -/
theorem adam_step_contract_witness :
    (adam_step_wrapper adamFix 1 0 0 1 1 1).param.getD 0 0 =
      1 - 1 * ((0 * 0 + (1 - 0) * 2) / 1) /
        (Real.sqrt ((0 * 0 + (1 - 0) * 2 ^ 2) / 1) + 1) :=
  ((adam_step_contract adamFix 1 0 0 1 1 1 rfl rfl rfl).1 0 (by decide)).2.2

/-!
## C1 — near/far culling, downstream exclusion, zero gradients
-/

/-- Every tile key references a visible (radius ≠ 0) projection record. -/
theorem tile_keys_sourced (st : FastGSSettings) (projs : List ProjResult) :
    ∀ k ∈ tile_keys st projs, ∃ pr, projs[k.gid]? = some pr ∧ pr.radius ≠ 0 := by
  intro k hk
  simp only [tile_keys, List.mem_flatMap] at hk
  obtain ⟨ip, hip, hk2⟩ := hk
  by_cases h : ip.2.radius = 0
  · simp [h] at hk2
  · simp only [if_neg h, List.mem_map] at hk2
    obtain ⟨t, _, rfl⟩ := hk2
    have hgot := List.mem_enum_iff_getElem?.1 hip
    exact ⟨ip.2, hgot, h⟩

/-- C1: a Gaussian whose camera-space depth is at most `near_plane` or at
least `far_plane` is projected with radius 0, never appears in the tile
intersection work-list consumed by the rasterizer, and the backward pass
routes exactly zero gradient to its mean, quaternion and scale — for every
choice of the numeric kernels (activations, square root, visible-branch
VJP). -/
theorem projection_culling_zero_gradient (nk : NumericKernels)
    (st : FastGSSettings) (gs : List Gaussian) (i : ℕ) (hi : i < gs.length)
    (hdepth : cam_depth st (gs.getD i gdefault) ≤ st.near_plane ∨
      st.far_plane ≤ cam_depth st (gs.getD i gdefault)) :
    ((gs.map (project_gaussian nk st)).getD i (culledResult 0)).radius = 0 ∧
    (∀ k ∈ tile_keys st (gs.map (project_gaussian nk st)), k.gid ≠ i) ∧
    (∀ up : UpGrads,
      projection_backward nk (gs.getD i gdefault)
        ((gs.map (project_gaussian nk st)).getD i (culledResult 0)) up =
        ProjGrads.zero) := by
  have hproj : project_gaussian nk st (gs.getD i gdefault) =
      culledResult (cam_depth st (gs.getD i gdefault)) := by
    unfold project_gaussian
    exact if_pos hdepth
  have hgi : gs.getD i gdefault = gs[i] := by
    simp [List.getD_eq_getElem?_getD, List.getElem?_eq_getElem hi]
  have h1 : (gs.map (project_gaussian nk st)).getD i (culledResult 0) =
      project_gaussian nk st (gs.getD i gdefault) := by
    simp [List.getD_eq_getElem?_getD, List.getElem?_map,
      List.getElem?_eq_getElem hi, hgi]
  refine ⟨?_, ?_, ?_⟩
  · rw [h1, hproj]; rfl
  · intro k hk hki
    obtain ⟨pr, hpr, hrad⟩ :=
      tile_keys_sourced st (gs.map (project_gaussian nk st)) k hk
    rw [hki, List.getElem?_map, List.getElem?_eq_getElem hi] at hpr
    simp only [Option.map_some', Option.some_inj] at hpr
    apply hrad
    rw [← hpr, ← hgi, hproj]
    rfl
  · intro up
    rw [h1, hproj]
    rfl

/-- Numeric kernels for concrete evaluation: identity activations and a
zero visible-branch VJP. -/
def nkFix : NumericKernels := ⟨id, id, fun _ _ _ => ProjGrads.zero⟩

/-- Identity camera at the origin, 64×64 viewport. -/
def stFix : FastGSSettings :=
  { w2c := [[1, 0, 0, 0], [0, 1, 0, 0], [0, 0, 1, 0], [0, 0, 0, 1]]
    cam_position := (0, 0, 0)
    active_sh_bases := 1
    width := 64
    height := 64
    focal_x := 10
    focal_y := 10
    center_x := 32
    center_y := 32
    near_plane := 1 / 5
    far_plane := 1000 }

/-- Concrete upstream gradient. -/
def upFix : UpGrads := ⟨(1, 1), 1, (1, 1, 1), 1⟩

/-- C1 witness: the default Gaussian sits at the camera origin, depth 0 ≤
near_plane, so its radius is 0 and its backward gradient is exactly zero. -/
theorem projection_culling_zero_gradient_witness :
    (([gdefault].map (project_gaussian nkFix stFix)).getD 0 (culledResult 0)).radius = 0 ∧
    projection_backward nkFix ([gdefault].getD 0 gdefault)
      (([gdefault].map (project_gaussian nkFix stFix)).getD 0 (culledResult 0)) upFix =
      ProjGrads.zero :=
  ⟨(projection_culling_zero_gradient nkFix stFix [gdefault] 0 (by decide)
      (Or.inl (by norm_num [cam_depth, cam_space, stFix, gdefault, entry]))).1,
   (projection_culling_zero_gradient nkFix stFix [gdefault] 0 (by decide)
      (Or.inl (by norm_num [cam_depth, cam_space, stFix, gdefault, entry]))).2.2 upFix⟩

/-!
## C8 — rejected and supported COLMAP camera models
-/

/-- Bind on a successful `Except` value. -/
theorem except_bind_ok (a : α) (f : α → Except ε β) :
    (Except.ok a >>= f) = f a := rfl

/-- Bind on a failed `Except` value. -/
theorem except_bind_error (e : ε) (f : α → Except ε β) :
    ((Except.error e : Except ε α) >>= f) = .error e := rfl

/-- If any element fails, the whole `mapM` fails. -/
theorem mapM_error_of_mem (f : α → Except ε β) :
    ∀ (l : List α), (∃ x ∈ l, ∃ e, f x = .error e) →
      ∃ e, l.mapM f = .error e := by
  intro l
  induction l with
  | nil =>
    intro h
    obtain ⟨x, hx, _⟩ := h
    simp at hx
  | cons a l ih =>
    intro h
    obtain ⟨x, hx, e, hfe⟩ := h
    cases hfa : f a with
    | error ea => exact ⟨ea, by rw [List.mapM_cons, hfa]; rfl⟩
    | ok b =>
      rcases List.mem_cons.mp hx with rfl | hx2
      · rw [hfa] at hfe
        simp at hfe
      · obtain ⟨e2, he2⟩ := ih ⟨x, hx2, e, hfe⟩
        exact ⟨e2, by rw [List.mapM_cons, hfa, he2]; rfl⟩

/-- If every element succeeds with a postcondition, the whole `mapM`
succeeds and the postcondition holds of every result. -/
theorem mapM_ok_forall {f : α → Except ε β} {P : β → Prop} :
    ∀ (l : List α), (∀ x ∈ l, ∃ y, f x = .ok y ∧ P y) →
      ∃ ys, l.mapM f = .ok ys ∧ ∀ y ∈ ys, P y := by
  intro l
  induction l with
  | nil => intro _; exact ⟨[], rfl, by simp⟩
  | cons a l ih =>
    intro h
    obtain ⟨y, hy, hPy⟩ := h a (List.mem_cons_self a l)
    obtain ⟨ys, hys, hP⟩ := ih (fun x hx => h x (List.mem_cons_of_mem a hx))
    refine ⟨y :: ys, by rw [List.mapM_cons, hy, hys]; rfl, ?_⟩
    intro z hz
    rcases List.mem_cons.mp hz with rfl | hz2
    · exact hPy
    · exact hP z hz2

/-- C8: a COLMAP dataset containing an image whose camera uses the `FOV` or
`THIN_PRISM_FISHEYE` model makes `read_colmap_cameras` throw before any
camera list is returned; and each supported model is accepted by the
intrinsics switch with the pinhole (resp. fisheye) gsplat tag. -/
theorem colmap_model_support :
    (∀ (b : Bool) (path : String) (cams : List (ℕ × CameraData))
        (images : List ColmapImage) (fd : Option (ℤ × ℤ)),
        (∃ img ∈ images, ∃ c, cams.lookup img.camera_id = some c ∧
          (c.camera_model = .FOV ∨ c.camera_model = .THIN_PRISM_FISHEYE)) →
        ∃ e, read_colmap_cameras b path cams images fd = .error e) ∧
    (∀ cam : CameraData,
        (cam.camera_model ∈ ([.SIMPLE_PINHOLE, .PINHOLE, .SIMPLE_RADIAL, .RADIAL,
            .OPENCV, .FULL_OPENCV] : List CAMERA_MODEL) →
          ∃ c2, assign_intrinsics cam = .ok c2 ∧ c2.camera_model_type = .PINHOLE) ∧
        (cam.camera_model ∈ ([.OPENCV_FISHEYE, .RADIAL_FISHEYE,
            .SIMPLE_RADIAL_FISHEYE] : List CAMERA_MODEL) →
          ∃ c2, assign_intrinsics cam = .ok c2 ∧ c2.camera_model_type = .FISHEYE)) := by
  constructor
  · intro b path cams images fd h
    cases b with
    | false => exact ⟨errImagesFolder, rfl⟩
    | true =>
      obtain ⟨img, himg, c, hc, hm⟩ := h
      have herr : ∃ e, assemble_camera path cams img = .error e := by
        unfold assemble_camera
        rw [hc]
        rcases hm with hm | hm
        · exact ⟨errFovModel, by simp [assign_intrinsics, hm]⟩
        · exact ⟨errThinPrism, by simp [assign_intrinsics, hm]⟩
      obtain ⟨e, he⟩ := herr
      obtain ⟨e2, he2⟩ := mapM_error_of_mem _ images ⟨img, himg, e, he⟩
      have he3 : List.mapM.loop (assemble_camera path cams) images [] =
          Except.error e2 := he2
      exact ⟨e2, by simp [read_colmap_cameras, he3, except_bind_error]⟩
  · intro cam
    constructor
    · intro h
      simp only [List.mem_cons, List.not_mem_nil, or_false] at h
      rcases h with h | h | h | h | h | h <;>
        · simp only [assign_intrinsics, h]
          exact ⟨_, rfl, rfl⟩
    · intro h
      simp only [List.mem_cons, List.not_mem_nil, or_false] at h
      rcases h with h | h | h <;>
        · simp only [assign_intrinsics, h]
          exact ⟨_, rfl, rfl⟩

/-- COLMAP camera record using the rejected `FOV` model. -/
def camFovFix : CameraData :=
  { camera_ID := 2, camera_model := .FOV, width := 10, height := 10,
    params := [100, 50, 50, 50, 1] }

/-- Image referencing the FOV camera. -/
def imgFovFix : ColmapImage := ⟨2, emptyStr, (1, 0, 0, 0), [0, 0, 0]⟩

/-- COLMAP camera record using the supported `PINHOLE` model. -/
def camPinFix : CameraData :=
  { camera_model := .PINHOLE, width := 100, height := 100,
    params := [100, 100, 50, 50] }

/-- C8 witness: assembling a dataset with an FOV camera errors, and the
PINHOLE model is accepted with the pinhole tag. -/
theorem colmap_model_support_witness :
    (∃ e, read_colmap_cameras true emptyStr [(2, camFovFix)] [imgFovFix] none = .error e) ∧
    (∃ c2, assign_intrinsics camPinFix = .ok c2 ∧ c2.camera_model_type = .PINHOLE) :=
  ⟨colmap_model_support.1 true emptyStr [(2, camFovFix)] [imgFovFix] none
      ⟨imgFovFix, by simp, camFovFix, rfl, Or.inl rfl⟩,
   (colmap_model_support.2 camPinFix).1 (by decide)⟩

/-!
## C7 — dimension mismatches are corrected, not fatal
-/

/-- True on a successful loader result. -/
def exceptOk : Except ε α → Bool
  | .ok _ => true
  | .error _ => false

/-- COLMAP camera whose database dimensions (100×100) will disagree with
the probed image (50×50). -/
def camMisFix : CameraData :=
  { camera_ID := 1, camera_model := .PINHOLE, width := 100, height := 100,
    params := [100, 100, 50, 50] }

/-- Image referencing the mismatched camera. -/
def imgMisFix : ColmapImage := ⟨1, emptyStr, (1, 0, 0, 0), [0, 0, 0]⟩

/-- C7 counterexample: on a COLMAP dataset whose actual image dimensions
(50×50) disagree with the database record (100×100), `read_colmap_cameras`
does *not* report a failure — it returns a successfully assembled camera
list, refuting the claim that a dimension mismatch is fatal. -/
theorem colmap_dimension_mismatch_not_fatal :
    exceptOk (read_colmap_cameras true emptyStr [(1, camMisFix)] [imgMisFix]
      (some (50, 50))) = true := by
  have hmem : ∀ x ∈ [imgMisFix], ∃ y,
      assemble_camera emptyStr [(1, camMisFix)] x = .ok y ∧ True := by
    intro x hx
    simp only [List.mem_singleton] at hx
    subst hx
    exact ⟨_, by simp only [assemble_camera, assign_intrinsics, camMisFix,
      imgMisFix, List.lookup]; rfl, trivial⟩
  obtain ⟨ys, hys, -⟩ := mapM_ok_forall [imgMisFix] hmem
  have hys2 : List.mapM.loop (assemble_camera emptyStr [(1, camMisFix)])
      [imgMisFix] [] = Except.ok ys := hys
  simp [read_colmap_cameras, hys2, except_bind_ok, exceptOk]

/-- C7 (amended): when the actual dimensions of the first image disagree
with the COLMAP database beyond the `1e-5` relative tolerance, the loader
succeeds anyway: it applies the dimension correction (rescaling dimensions,
focal lengths and principal point) to every assembled camera and returns
the corrected list.  Missing image folders, unknown camera ids and
unsupported models remain fatal. -/
theorem colmap_dimension_mismatch_corrected (path : String)
    (cams : List (ℕ × CameraData)) (images : List ColmapImage)
    (aw ah : ℤ) (c0 : CameraData) (rest : List CameraData)
    (hassemble : images.mapM (assemble_camera path cams) = .ok (c0 :: rest))
    (hmis : |(aw : ℚ) / (c0.width : ℚ) - 1| > 1 / 100000 ∨
            |(ah : ℚ) / (c0.height : ℚ) - 1| > 1 / 100000) :
    read_colmap_cameras true path cams images (some (aw, ah)) =
      .ok ((c0 :: rest).map (apply_dimension_correction
              ((aw : ℚ) / (c0.width : ℚ)) ((ah : ℚ) / (c0.height : ℚ)) aw ah),
           mean_location ((c0 :: rest).map (apply_dimension_correction
              ((aw : ℚ) / (c0.width : ℚ)) ((ah : ℚ) / (c0.height : ℚ)) aw ah))) := by
  have hassemble2 : List.mapM.loop (assemble_camera path cams) images [] =
      Except.ok (c0 :: rest) := hassemble
  have hverify : verify_dimensions (c0 :: rest) (some (aw, ah)) =
      (c0 :: rest).map (apply_dimension_correction
        ((aw : ℚ) / (c0.width : ℚ)) ((ah : ℚ) / (c0.height : ℚ)) aw ah) := by
    unfold verify_dimensions
    dsimp only
    rw [if_pos hmis]
  simp [read_colmap_cameras, hassemble2, except_bind_ok, hverify]

/-- The camera record produced by assembling `imgMisFix` with `camMisFix`. -/
def camAssembledFix : CameraData :=
  { camera_ID := 1, camera_model := .PINHOLE, width := 100, height := 100,
    params := [100, 100, 50, 50], focal_x := 100, focal_y := 100,
    center_x := 50, center_y := 50, camera_model_type := .PINHOLE,
    image_path := emptyStr, image_name := emptyStr,
    R := qvec2rotmat (1, 0, 0, 0), T := [0, 0, 0] }

/-- C7 witness: the mismatched concrete dataset is corrected by the factor
`50/100` and returned successfully. -/
theorem colmap_dimension_mismatch_corrected_witness :
    read_colmap_cameras true emptyStr [(1, camMisFix)] [imgMisFix] (some (50, 50)) =
      .ok (([camAssembledFix]).map (apply_dimension_correction
              (((50 : ℤ) : ℚ) / (camAssembledFix.width : ℚ))
              (((50 : ℤ) : ℚ) / (camAssembledFix.height : ℚ)) 50 50),
           mean_location (([camAssembledFix]).map (apply_dimension_correction
              (((50 : ℤ) : ℚ) / (camAssembledFix.width : ℚ))
              (((50 : ℤ) : ℚ) / (camAssembledFix.height : ℚ)) 50 50))) :=
  colmap_dimension_mismatch_corrected emptyStr [(1, camMisFix)] [imgMisFix]
    50 50 camAssembledFix []
    (by simp only [List.mapM_cons, assemble_camera, assign_intrinsics, camMisFix,
          imgMisFix, camAssembledFix, List.lookup]
        rfl)
    (Or.inl (lt_abs.mpr (Or.inr (by norm_num [camAssembledFix]))))

/-!
## C9 — transforms-JSON distortion rejection
-/

/-- C9: a transforms-JSON dataset with a strictly positive distortion
coefficient makes the reader throw before producing any camera; with
distortion coefficients absent, zero or negative (and the dataset otherwise
well-formed) the reader succeeds, and every produced camera is tagged
pinhole with empty distortion — the coefficients are discarded. -/
theorem transforms_distortion_rejection (tanQ : ℚ → ℚ)
    (pose_of : Matq → Matq × List ℚ) (j : TransformsJson)
    (fd : Option (ℤ × ℤ)) :
    ((0 < (j.k1).getD 0 ∨ 0 < (j.k2).getD 0 ∨ 0 < (j.p1).getD 0 ∨ 0 < (j.p2).getD 0) →
      ∃ e, read_transforms_cameras_and_images tanQ pose_of j fd = .error e) ∧
    (∀ (w h : ℤ) (fy : ℚ),
      resolve_dims j.w j.h fd = .ok (w, h) →
      resolve_fl_y tanQ w h (resolve_fl_x tanQ w j) j = .ok fy →
      ¬(0 < (j.k1).getD 0 ∨ 0 < (j.k2).getD 0 ∨ 0 < (j.p1).getD 0 ∨ 0 < (j.p2).getD 0) →
      (∀ fr ∈ j.frames, ∃ m, fr.transform_matrix = some m ∧ m.length = 4) →
      ∃ cams, read_transforms_cameras_and_images tanQ pose_of j fd =
          .ok (cams, (0, 0, 0)) ∧
        ∀ cam ∈ cams, cam.camera_model_type = .PINHOLE ∧
          cam.radial_distortion = [] ∧ cam.tangential_distortion = []) := by
  constructor
  · intro hpos
    unfold read_transforms_cameras_and_images
    cases hd : resolve_dims j.w j.h fd with
    | error e => exact ⟨e, by simp [hd, except_bind_error]⟩
    | ok wh =>
      cases hfy : resolve_fl_y tanQ wh.1 wh.2 (resolve_fl_x tanQ wh.1 j) j with
      | error e => exact ⟨e, by simp [hd, hfy, except_bind_ok, except_bind_error]⟩
      | ok fy =>
        exact ⟨errDistortion,
          by simp [hd, hfy, except_bind_ok, except_bind_error, if_pos hpos]⟩
  · intro w h fy hd hfy hneg hframes
    have hperframe : ∀ cf ∈ j.frames.enum, ∃ cam,
        frame_to_camera pose_of w h (resolve_fl_x tanQ w j) fy
          ((j.cx).getD ((1 / 2 : ℚ) * (w : ℚ))) ((j.cy).getD ((1 / 2 : ℚ) * (h : ℚ)))
          cf.1 cf.2 = .ok cam ∧
        (cam.camera_model_type = .PINHOLE ∧
          cam.radial_distortion = [] ∧ cam.tangential_distortion = []) := by
      intro cf hcf
      have hfr : cf.2 ∈ j.frames :=
        List.getElem?_mem (List.mem_enum_iff_getElem?.1 hcf)
      obtain ⟨m, hm, hlen⟩ := hframes cf.2 hfr
      unfold frame_to_camera
      rw [hm]
      dsimp only
      rw [if_neg (by simp [hlen])]
      exact ⟨_, rfl, rfl, rfl, rfl⟩
    obtain ⟨cams, hcams, hP⟩ := mapM_ok_forall (j.frames.enum) hperframe
    refine ⟨cams, ?_, hP⟩
    unfold read_transforms_cameras_and_images
    rw [hd]
    simp only [except_bind_ok]
    rw [hfy]
    simp only [except_bind_ok]
    rw [if_neg hneg, hcams]
    rfl

/-- Transforms JSON with a positive `k1` distortion coefficient. -/
def jBadFix : TransformsJson :=
  { w := some 4, h := some 4, fl_x := some 1, camera_angle_x := none,
    fl_y := some 1, camera_angle_y := none, cx := none, cy := none,
    k1 := some 1, k2 := none, p1 := none, p2 := none, frames := [] }

/-- Well-formed transforms JSON without distortion, one identity frame. -/
def jGoodFix : TransformsJson :=
  { w := some 4, h := some 4, fl_x := some 1, camera_angle_x := none,
    fl_y := some 1, camera_angle_y := none, cx := none, cy := none,
    k1 := none, k2 := some (-1), p1 := none, p2 := none,
    frames := [⟨emptyStr,
      some [[1, 0, 0, 0], [0, 1, 0, 0], [0, 0, 1, 0], [0, 0, 0, 1]]⟩] }

/-- Identity stand-in for the external pose pipeline. -/
def poseFix : Matq → Matq × List ℚ := fun m => (m, [])

/-- C9 witness: the positive-`k1` dataset errors; the clean dataset yields
pinhole cameras without distortion. -/
theorem transforms_distortion_rejection_witness :
    (∃ e, read_transforms_cameras_and_images id poseFix jBadFix none = .error e) ∧
    (∃ cams, read_transforms_cameras_and_images id poseFix jGoodFix none =
        .ok (cams, (0, 0, 0)) ∧
      ∀ cam ∈ cams, cam.camera_model_type = .PINHOLE ∧
        cam.radial_distortion = [] ∧ cam.tangential_distortion = []) :=
  ⟨(transforms_distortion_rejection id poseFix jBadFix none).1
      (Or.inl (by norm_num [jBadFix])),
   (transforms_distortion_rejection id poseFix jGoodFix none).2 4 4 1 rfl rfl
      (by norm_num [jGoodFix])
      (by
        intro fr hfr
        simp only [jGoodFix, List.mem_singleton] at hfr
        subst hfr
        exact ⟨_, rfl, rfl⟩)⟩

end LFS
